import Mathlib

/-!
Shallow embedding of `src/backend/services/ecourts_scraper.py` (class
ECourtsScraper) and proofs about it.

Modelling conventions:
* HTML documents are represented after the BeautifulSoup step, which is an
  external library: an option list is a list of option nodes (attribute
  value, inner text); a key/value panel is the list of its table rows, each
  row the list of its cell texts; a cause-list document is the first table
  as a list of rows (or nothing when no table exists).
* The transport layer is an explicit argument of kind Except: an error value
  stands for a network error, timeout or any exception raised inside the
  try block of a public operation.
* The ambient clock read by datetime.now() inside _parse_case_result is an
  explicit Date parameter of the embedded interpreter, and the isoformat
  timestamp attached by fetch_cause_list an explicit String parameter.
* Python str.strip, str.lower, substring membership and dict insertion are
  embedded below as pyStrip, pyLower, strContains and dictInsert.
-/

/-- Whitespace characters stripped by Python str.strip (ASCII subset). -/
def isSpaceChar (c : Char) : Bool :=
  c == ' ' || c == '\t' || c == '\n' || c == '\r' || c == '\x0b' || c == '\x0c'

/-- Embedding of Python value.strip(). -/
def pyStrip (s : String) : String :=
  String.mk (((s.toList.dropWhile isSpaceChar).reverse.dropWhile isSpaceChar).reverse)

/-- Lowercase one ASCII character, as Python str.lower does on ASCII input. -/
def lowerChar (c : Char) : Char :=
  if 'A' ≤ c && c ≤ 'Z' then Char.ofNat (c.toNat + 32) else c

/-- Embedding of Python value.lower(). -/
def pyLower (s : String) : String :=
  String.mk (s.toList.map lowerChar)

/-- Does the first list start with the second list of characters. -/
def listStartsWith : List Char → List Char → Bool
  | _, [] => true
  | [], _ :: _ => false
  | a :: as, b :: bs => a == b && listStartsWith as bs

/-- Does some suffix of the haystack start with the needle. -/
def listHasSub (hay needle : List Char) : Bool :=
  match hay with
  | [] => needle.isEmpty
  | _ :: t => listStartsWith (hay) needle || listHasSub t needle

/-- Embedding of the Python membership test: needle in hay (on strings). -/
def strContains (hay needle : String) : Bool :=
  listHasSub hay.toList needle.toList

/-- A calendar date as Python datetime.date: year, month, day. -/
structure Date where
  year : Nat
  month : Nat
  day : Nat
deriving DecidableEq

/-- Gregorian leap-year rule used by datetime. -/
def isLeapYear (y : Nat) : Bool :=
  (y % 4 == 0 && y % 100 != 0) || y % 400 == 0

/-- Number of days in a month of a year. -/
def daysInMonth (y m : Nat) : Nat :=
  if m == 2 then (if isLeapYear y then 29 else 28)
  else if m == 4 || m == 6 || m == 9 || m == 11 then 30
  else 31

/-- The validity condition datetime.date enforces on its components. -/
def validDate (d : Date) : Bool :=
  1 ≤ d.year && d.year ≤ 9999 && 1 ≤ d.month && d.month ≤ 12 &&
    1 ≤ d.day && d.day ≤ daysInMonth d.year d.month

/-- Embedding of today + timedelta(days=1): the next calendar day. -/
def nextDay (d : Date) : Date :=
  if d.day < daysInMonth d.year d.month then ⟨d.year, d.month, d.day + 1⟩
  else if d.month < 12 then ⟨d.year, d.month + 1, 1⟩
  else ⟨d.year + 1, 1, 1⟩

/-- Split a character list on the dash character, as Python split on a dash. -/
def splitDash (l : List Char) : List (List Char) :=
  l.foldr
    (fun c acc =>
      if c == '-' then [] :: acc
      else
        match acc with
        | [] => [[c]]
        | cur :: rest => (c :: cur) :: rest)
    [[]]

/-- Is the character an ASCII digit. -/
def isDigitChar (c : Char) : Bool :=
  48 ≤ c.toNat && c.toNat ≤ 57

/-- Numeric value of a digit list. -/
def digitsVal (l : List Char) : Nat :=
  l.foldl (fun n c => 10 * n + (c.toNat - 48)) 0

/-- Embedding of datetime.strptime(value, dd-mm-YYYY).date(): day and month
of one or two digits, a four-digit year, dash separators, nothing else, and
the triple must be a real calendar date; any failure is signalled as none
(the source wraps the call in try/except). -/
def parseDDMMYYYY (s : String) : Option Date :=
  match splitDash s.toList with
  | [ds, ms, ys] =>
    if (1 ≤ ds.length && ds.length ≤ 2 && ds.all isDigitChar) &&
        (1 ≤ ms.length && ms.length ≤ 2 && ms.all isDigitChar) &&
        (ys.length == 4 && ys.all isDigitChar) then
      let d : Date := ⟨digitsVal ys, digitsVal ms, digitsVal ds⟩
      if validDate d then some d else none
    else none
  | _ => none

/-- An entry of the dictionaries returned by the location fetchers:
the code/name pairs built from option elements. -/
structure LocationEntry where
  code : String
  name : String
deriving DecidableEq

/-- An HTML option node after BeautifulSoup: the value attribute (absent
attributes read as the empty string by option.get) and the inner text. -/
structure HtmlOption where
  value : Option String
  text : String
deriving DecidableEq

/-- The stripped value attribute of an option node. -/
def optValue (o : HtmlOption) : String :=
  pyStrip (o.value.getD "")

/-- The filter applied by every option loop of the source: the stripped
value is truthy and not the placeholder "0". -/
def validOption (o : HtmlOption) : Bool :=
  optValue o ≠ "" && optValue o ≠ "0"

/-- The option loop shared by fetch_states, fetch_districts,
fetch_court_complexes and fetch_courts: append one code/name entry per
valid option, in document order. -/
def extractOptions (opts : List HtmlOption) : List LocationEntry :=
  opts.foldl
    (fun acc o =>
      if validOption o then acc ++ [⟨optValue o, pyStrip o.text⟩] else acc)
    []

/-- The fallback list returned by _get_default_states. -/
def default_states : List LocationEntry :=
  [⟨"1", "Delhi"⟩, ⟨"2", "Maharashtra"⟩, ⟨"3", "Karnataka"⟩,
   ⟨"4", "Tamil Nadu"⟩, ⟨"5", "Gujarat"⟩, ⟨"6", "Rajasthan"⟩,
   ⟨"7", "West Bengal"⟩, ⟨"8", "Uttar Pradesh"⟩, ⟨"9", "Madhya Pradesh"⟩,
   ⟨"10", "Punjab"⟩]

/-- The dictionary built by _parse_case_result, as Python dicts behave:
insertion order is kept, writing an existing key overwrites in place. -/
def dictInsert (k v : String) (l : List (String × String)) : List (String × String) :=
  if l.any (fun p => p.1 == k) then
    l.map (fun p => if p.1 == k then (k, v) else p)
  else l ++ [(k, v)]

/-- The record built by _parse_case_result. -/
structure CaseResult where
  case_id : String
  found : Bool
  listed_today : Bool
  listed_tomorrow : Bool
  serial_number : Option String
  court_name : Option String
  next_hearing_date : Option String
  case_status : Option String
  details : List (String × String)
deriving DecidableEq

/-- The initial record of _parse_case_result before any row is read. -/
def initCaseResult (caseId : String) : CaseResult :=
  { case_id := caseId, found := false, listed_today := false,
    listed_tomorrow := false, serial_number := none, court_name := none,
    next_hearing_date := none, case_status := none, details := [] }

/-- The label of a row: first cell text, stripped then lowercased. -/
def rowLabel (cells : List String) : String :=
  pyLower (pyStrip (cells.getD 0 ""))

/-- The value of a row: second cell text, stripped. -/
def rowValue (cells : List String) : String :=
  pyStrip (cells.getD 1 "")

/-- The hearing-row test of the source: the label contains the substring
"hearing date" or the substring "next date". -/
def hearingLabel (label : String) : Bool :=
  strContains label "hearing date" || strContains label "next date"

/-- The hearing-date branch of _parse_case_result on one row: record the
raw value as next_hearing_date, then try to parse it; a date equal to the
evaluation date marks listed_today and found, a date equal to the next
calendar day marks listed_tomorrow and found, anything else (a different
date, or a parse failure) changes nothing further. -/
def hearingUpdate (today : Date) (r : CaseResult) (value : String) : CaseResult :=
  let r1 := { r with next_hearing_date := some value }
  match parseDDMMYYYY value with
  | some hd =>
    if hd = today then { r1 with listed_today := true, found := true }
    else if hd = nextDay today then { r1 with listed_tomorrow := true, found := true }
    else r1
  | none => r1

/-- The per-row field updates of _parse_case_result once a row has at
least two cells: store the label/value pair in details, then apply each
substring rule in source order. -/
def stepFields (today : Date) (r : CaseResult) (label value : String) : CaseResult :=
  let r1 := { r with details := dictInsert label value r.details }
  let r2 := if hearingLabel label then hearingUpdate today r1 value else r1
  let r3 := if strContains label "court" then { r2 with court_name := some value } else r2
  let r4 :=
    if strContains label "serial" || strContains label "sr." then
      { r3 with serial_number := some value }
    else r3
  if strContains label "status" then { r4 with case_status := some value } else r4

/-- One iteration of the row loop of _parse_case_result: rows with fewer
than two cells are skipped. -/
def caseStep (today : Date) (r : CaseResult) (cells : List String) : CaseResult :=
  if 2 ≤ cells.length then stepFields today r (rowLabel cells) (rowValue cells)
  else r

/-- Embedding of _parse_case_result: fold the row loop over every table
row of the document, starting from the all-empty record. The evaluation
date sampled from datetime.now() in the source is the explicit today
parameter. -/
def parse_case_result (rows : List (List String)) (caseId : String) (today : Date) : CaseResult :=
  rows.foldl (caseStep today) (initCaseResult caseId)

/-- One entry of a parsed cause list, as the case dict of _parse_cause_list:
cells 0..3 are read unconditionally (the row is known to have at least four
cells), the purpose falls back to the empty string when no fifth cell
exists. -/
structure CauseListEntry where
  serial_number : String
  case_number : String
  parties : String
  advocate : String
  purpose : String
deriving DecidableEq

/-- The case dict built from one qualifying row of the cause-list table. -/
def mkCauseListEntry (cells : List String) : CauseListEntry :=
  { serial_number := pyStrip (cells.getD 0 ""),
    case_number := pyStrip (cells.getD 1 ""),
    parties := pyStrip (cells.getD 2 ""),
    advocate := if 3 < cells.length then pyStrip (cells.getD 3 "") else "",
    purpose := if 4 < cells.length then pyStrip (cells.getD 4 "") else "" }

/-- The dict returned by _parse_cause_list: the entry count and the entries. -/
structure ParsedCauseList where
  total_cases : Nat
  cases : List CauseListEntry
deriving DecidableEq

/-- The row loop of _parse_cause_list over the rows after the header:
append one entry per row having at least four cells. -/
def causeRowsLoop (rows : List (List String)) : List CauseListEntry :=
  rows.foldl
    (fun acc cells =>
      if 4 ≤ cells.length then acc ++ [mkCauseListEntry cells] else acc)
    []

/-- Embedding of _parse_cause_list: the input is the first table of the
document as its list of rows, or none when the document has no table; the
first row of the table is dropped as the header. -/
def parse_cause_list (tbl : Option (List (List String))) : ParsedCauseList :=
  let cases :=
    match tbl with
    | some rows => causeRowsLoop (rows.drop 1)
    | none => []
  { total_cases := cases.length, cases := cases }

/-- Embedding of fetch_states. The transport argument carries, on success,
the select element with id or name state_code as its option list (none when
no such select exists); an Except error is any exception in the try block.
The fallback list is used both when an exception occurred and when no state
was extracted. -/
def fetch_states (resp : Except String (Option (List HtmlOption))) : List LocationEntry :=
  match resp with
  | .error _ => default_states
  | .ok sel =>
    let states :=
      match sel with
      | some opts => extractOptions opts
      | none => []
    if states.isEmpty then default_states else states

/-- Embedding of fetch_districts: on success the document's option nodes,
on failure the empty list. -/
def fetch_districts (resp : Except String (List HtmlOption)) : List LocationEntry :=
  match resp with
  | .error _ => []
  | .ok opts => extractOptions opts

/-- Embedding of fetch_court_complexes, same shape as fetch_districts. -/
def fetch_court_complexes (resp : Except String (List HtmlOption)) : List LocationEntry :=
  match resp with
  | .error _ => []
  | .ok opts => extractOptions opts

/-- Embedding of fetch_courts, same shape as fetch_districts. -/
def fetch_courts (resp : Except String (List HtmlOption)) : List LocationEntry :=
  match resp with
  | .error _ => []
  | .ok opts => extractOptions opts

/-- The search result dict after search_case_by_cnr or
search_case_by_details added its keys to the parsed case record. -/
structure SearchResult where
  result : CaseResult
  search_type : String
  cnr : Option String
  case_details : Option (String × String × String)
deriving DecidableEq

/-- Embedding of search_case_by_cnr: on transport failure None, otherwise
the parsed case result tagged with the CNR search type. -/
def search_case_by_cnr (cnr : String) (today : Date)
    (resp : Except String (List (List String))) : Option SearchResult :=
  match resp with
  | .error _ => none
  | .ok rows =>
    some { result := parse_case_result rows cnr today,
           search_type := "CNR", cnr := some cnr, case_details := none }

/-- Embedding of search_case_by_details: on transport failure None,
otherwise the parsed case result tagged with the DETAILS search type. -/
def search_case_by_details (caseType caseNumber caseYear : String) (today : Date)
    (resp : Except String (List (List String))) : Option SearchResult :=
  match resp with
  | .error _ => none
  | .ok rows =>
    some { result := parse_case_result rows
             (caseType ++ "/" ++ caseNumber ++ "/" ++ caseYear) today,
           search_type := "DETAILS",
           cnr := none,
           case_details := some (caseType, caseNumber, caseYear) }

/-- The metadata dict attached by fetch_cause_list. -/
structure CauseListMetadata where
  state_code : String
  district_code : String
  court_complex_code : String
  court_code : Option String
  date : String
  fetched_at : String
deriving DecidableEq

/-- The dict returned by fetch_cause_list: on success total_cases, the
cases and the metadata; on failure an error message and an empty cases
list, with no total_cases and no metadata keys. -/
structure CauseListFetch where
  total_cases : Option Nat
  cases : List CauseListEntry
  error : Option String
  metadata : Option CauseListMetadata
deriving DecidableEq

/-- Embedding of fetch_cause_list: parse the first table of the response
and attach the metadata, the fetched_at timestamp sampled at the facade
being an explicit parameter; a transport failure yields the error dict
with an empty cases list. -/
def fetch_cause_list (s d cc : String) (court : Option String) (date fetchedAt : String)
    (resp : Except String (Option (List (List String)))) : CauseListFetch :=
  match resp with
  | .error e => { total_cases := none, cases := [], error := some e, metadata := none }
  | .ok tbl =>
    let pl := parse_cause_list tbl
    { total_cases := some pl.total_cases, cases := pl.cases, error := none,
      metadata := some ⟨s, d, cc, court, date, fetchedAt⟩ }

/-- An HTTP response as download_cause_list_pdf consumes it: the status
code, the declared content type header (none when absent) and the body
bytes. -/
structure HttpResponse where
  status_code : Nat
  content_type : Option String
  content : List Nat
deriving DecidableEq

/-- What the embedded download operation reports: the value returned to
the caller (a file path or None) and the filesystem writes the operation
itself performed, each a path paired with the bytes written. -/
structure DownloadOutcome where
  returned : Option String
  writes : List (String × List Nat)
deriving DecidableEq

/-- The file path built by download_cause_list_pdf: the downloads
directory joined with the name derived from the request parameters, the
date stripped of its dashes. -/
def pdfFilePath (s d cc date : String) : String :=
  "downloads/" ++ "cause_list_" ++ s ++ "_" ++ d ++ "_" ++ cc ++ "_" ++
    String.mk (date.toList.filter (fun c => c != '-')) ++ ".pdf"

/-- Embedding of download_cause_list_pdf: when the status code is 200 and
the content-type header equals application/pdf exactly, the operation
writes the body bytes to the derived path itself and returns that path;
in every other case, a transport failure included, it returns None and
writes nothing. -/
def download_cause_list_pdf (s d cc : String) (court : Option String) (date : String)
    (resp : Except String HttpResponse) : DownloadOutcome :=
  match resp with
  | .error _ => { returned := none, writes := [] }
  | .ok r =>
    if r.status_code = 200 ∧ r.content_type = some "application/pdf" then
      let fp := pdfFilePath s d cc date
      { returned := some fp, writes := [(fp, r.content)] }
    else { returned := none, writes := [] }

/-- Observation: does the value parse to exactly the evaluation date. -/
def valueToday (today : Date) (value : String) : Bool :=
  match parseDDMMYYYY value with
  | some hd => decide (hd = today)
  | none => false

/-- Observation: does the value parse to the day after the evaluation date
(and not to the evaluation date itself, matching the elif of the source). -/
def valueTomorrow (today : Date) (value : String) : Bool :=
  match parseDDMMYYYY value with
  | some hd => decide (¬hd = today ∧ hd = nextDay today)
  | none => false

/-- Observation: does the value parse to the evaluation date or to the day
after it, the condition under which the source sets found. -/
def valueFound (today : Date) (value : String) : Bool :=
  match parseDDMMYYYY value with
  | some hd => decide (hd = today ∨ hd = nextDay today)
  | none => false

theorem hearingUpdate_found (today : Date) (r : CaseResult) (v : String) :
    (hearingUpdate today r v).found = (r.found || valueFound today v) := by
  unfold hearingUpdate valueFound
  cases h : parseDDMMYYYY v with
  | none => simp
  | some hd => dsimp only; split_ifs with ha hb <;> simp_all

theorem hearingUpdate_today (today : Date) (r : CaseResult) (v : String) :
    (hearingUpdate today r v).listed_today = (r.listed_today || valueToday today v) := by
  unfold hearingUpdate valueToday
  cases h : parseDDMMYYYY v with
  | none => simp
  | some hd => dsimp only; split_ifs with ha hb <;> simp_all

theorem hearingUpdate_tomorrow (today : Date) (r : CaseResult) (v : String) :
    (hearingUpdate today r v).listed_tomorrow = (r.listed_tomorrow || valueTomorrow today v) := by
  unfold hearingUpdate valueTomorrow
  cases h : parseDDMMYYYY v with
  | none => simp
  | some hd => dsimp only; split_ifs with ha hb <;> simp_all

theorem hearingUpdate_nhd (today : Date) (r : CaseResult) (v : String) :
    (hearingUpdate today r v).next_hearing_date = some v := by
  unfold hearingUpdate
  cases h : parseDDMMYYYY v with
  | none => simp
  | some hd => dsimp only; split_ifs with ha hb <;> simp_all

theorem stepFields_found (today : Date) (r : CaseResult) (label value : String) :
    (stepFields today r label value).found
      = (r.found || (hearingLabel label && valueFound today value)) := by
  unfold stepFields
  by_cases h1 : hearingLabel label <;>
    by_cases h2 : strContains label "court" <;>
      by_cases h3 : (strContains label "serial" || strContains label "sr.") = true <;>
        by_cases h4 : strContains label "status" <;>
          simp [h1, h2, h3, h4, hearingUpdate_found]

theorem stepFields_today (today : Date) (r : CaseResult) (label value : String) :
    (stepFields today r label value).listed_today
      = (r.listed_today || (hearingLabel label && valueToday today value)) := by
  unfold stepFields
  by_cases h1 : hearingLabel label <;>
    by_cases h2 : strContains label "court" <;>
      by_cases h3 : (strContains label "serial" || strContains label "sr.") = true <;>
        by_cases h4 : strContains label "status" <;>
          simp [h1, h2, h3, h4, hearingUpdate_today]

theorem stepFields_tomorrow (today : Date) (r : CaseResult) (label value : String) :
    (stepFields today r label value).listed_tomorrow
      = (r.listed_tomorrow || (hearingLabel label && valueTomorrow today value)) := by
  unfold stepFields
  by_cases h1 : hearingLabel label <;>
    by_cases h2 : strContains label "court" <;>
      by_cases h3 : (strContains label "serial" || strContains label "sr.") = true <;>
        by_cases h4 : strContains label "status" <;>
          simp [h1, h2, h3, h4, hearingUpdate_tomorrow]

theorem stepFields_nhd (today : Date) (r : CaseResult) (label value : String) :
    (stepFields today r label value).next_hearing_date
      = (if hearingLabel label then some value else r.next_hearing_date) := by
  unfold stepFields
  by_cases h1 : hearingLabel label <;>
    by_cases h2 : strContains label "court" <;>
      by_cases h3 : (strContains label "serial" || strContains label "sr.") = true <;>
        by_cases h4 : strContains label "status" <;>
          simp [h1, h2, h3, h4, hearingUpdate_nhd]

/-- Observation: does one row establish found (at least two cells, a
hearing label and a value parsing to today or tomorrow). -/
def rowFound (today : Date) (cells : List String) : Bool :=
  if 2 ≤ cells.length then hearingLabel (rowLabel cells) && valueFound today (rowValue cells)
  else false

/-- Observation: does one row set listed_today. -/
def rowToday (today : Date) (cells : List String) : Bool :=
  if 2 ≤ cells.length then hearingLabel (rowLabel cells) && valueToday today (rowValue cells)
  else false

/-- Observation: does one row set listed_tomorrow. -/
def rowTomorrow (today : Date) (cells : List String) : Bool :=
  if 2 ≤ cells.length then hearingLabel (rowLabel cells) && valueTomorrow today (rowValue cells)
  else false

theorem caseStep_found (today : Date) (r : CaseResult) (cells : List String) :
    (caseStep today r cells).found = (r.found || rowFound today cells) := by
  unfold caseStep rowFound
  split <;> simp [stepFields_found]

theorem caseStep_today (today : Date) (r : CaseResult) (cells : List String) :
    (caseStep today r cells).listed_today = (r.listed_today || rowToday today cells) := by
  unfold caseStep rowToday
  split <;> simp [stepFields_today]

theorem caseStep_tomorrow (today : Date) (r : CaseResult) (cells : List String) :
    (caseStep today r cells).listed_tomorrow = (r.listed_tomorrow || rowTomorrow today cells) := by
  unfold caseStep rowTomorrow
  split <;> simp [stepFields_tomorrow]

theorem foldl_caseStep_found (today : Date) :
    ∀ (rows : List (List String)) (r : CaseResult),
      (rows.foldl (caseStep today) r).found = (r.found || rows.any (rowFound today)) := by
  intro rows
  induction rows with
  | nil => intro r; simp
  | cons c cs ih =>
    intro r
    simp [List.foldl_cons, ih, caseStep_found, Bool.or_assoc]

theorem foldl_caseStep_today (today : Date) :
    ∀ (rows : List (List String)) (r : CaseResult),
      (rows.foldl (caseStep today) r).listed_today = (r.listed_today || rows.any (rowToday today)) := by
  intro rows
  induction rows with
  | nil => intro r; simp
  | cons c cs ih =>
    intro r
    simp [List.foldl_cons, ih, caseStep_today, Bool.or_assoc]

theorem foldl_caseStep_tomorrow (today : Date) :
    ∀ (rows : List (List String)) (r : CaseResult),
      (rows.foldl (caseStep today) r).listed_tomorrow
        = (r.listed_tomorrow || rows.any (rowTomorrow today)) := by
  intro rows
  induction rows with
  | nil => intro r; simp
  | cons c cs ih =>
    intro r
    simp [List.foldl_cons, ih, caseStep_tomorrow, Bool.or_assoc]

theorem rowFound_iff (today : Date) (cells : List String) :
    rowFound today cells = true ↔
      2 ≤ cells.length ∧ hearingLabel (rowLabel cells) = true ∧
        ∃ d, parseDDMMYYYY (rowValue cells) = some d ∧ (d = today ∨ d = nextDay today) := by
  unfold rowFound valueFound
  split
  · cases h : parseDDMMYYYY (rowValue cells) <;> simp_all
  · simp_all

theorem caseStep_nhd (today : Date) (r : CaseResult) (cells : List String) :
    (caseStep today r cells).next_hearing_date
      = (if 2 ≤ cells.length then
          (if hearingLabel (rowLabel cells) then some (rowValue cells) else r.next_hearing_date)
        else r.next_hearing_date) := by
  unfold caseStep
  split <;> simp [stepFields_nhd]

theorem rowToday_le_rowFound (today : Date) (cells : List String) :
    rowToday today cells = true → rowFound today cells = true := by
  unfold rowToday rowFound valueToday valueFound
  split
  · cases h : parseDDMMYYYY (rowValue cells) <;> simp_all
  · simp

theorem rowTomorrow_le_rowFound (today : Date) (cells : List String) :
    rowTomorrow today cells = true → rowFound today cells = true := by
  unfold rowTomorrow rowFound valueTomorrow valueFound
  split
  · cases h : parseDDMMYYYY (rowValue cells) <;> simp_all
  · simp

/-- Claim C1: found is true exactly when some table row with at least two
cells has a label containing "hearing date" or "next date" and a value
that parses as dd-mm-yyyy to the evaluation date or to the next calendar
day. -/
theorem found_iff_hearing_today_or_tomorrow (rows : List (List String)) (caseId : String) (today : Date) :
    (parse_case_result rows caseId today).found = true ↔
      ∃ cells ∈ rows, 2 ≤ cells.length ∧ hearingLabel (rowLabel cells) = true ∧
        ∃ d, parseDDMMYYYY (rowValue cells) = some d ∧ (d = today ∨ d = nextDay today) := by
  unfold parse_case_result
  rw [foldl_caseStep_found]
  simp [initCaseResult, List.any_eq_true, rowFound_iff]

/-- Claim C2, counterexample: on a panel whose first row carries the
evaluation date and whose second row carries the next day, both
listed_today and listed_tomorrow end up true, so the two flags are not
mutually exclusive. -/
theorem listed_flags_both_true_example :
    (parse_case_result [["Hearing Date", "05-03-2024"], ["Next Date", "06-03-2024"]]
        "CNR123" ⟨2024, 3, 5⟩).listed_today = true ∧
    (parse_case_result [["Hearing Date", "05-03-2024"], ["Next Date", "06-03-2024"]]
        "CNR123" ⟨2024, 3, 5⟩).listed_tomorrow = true := by decide

/-- Claim C2, amended: each of listed_today and listed_tomorrow being true
implies found = true (their mutual exclusivity does not hold across
distinct rows). -/
theorem listed_flag_implies_found (rows : List (List String)) (caseId : String) (today : Date)
    (h : (parse_case_result rows caseId today).listed_today = true ∨
      (parse_case_result rows caseId today).listed_tomorrow = true) :
    (parse_case_result rows caseId today).found = true := by
  unfold parse_case_result at h ⊢
  rw [foldl_caseStep_found]
  rw [foldl_caseStep_today] at h
  rw [foldl_caseStep_tomorrow] at h
  simp only [initCaseResult, Bool.false_or] at h ⊢
  rcases h with h | h
  · obtain ⟨c, hc, hrow⟩ := List.any_eq_true.mp h
    exact List.any_eq_true.mpr ⟨c, hc, rowToday_le_rowFound today c hrow⟩
  · obtain ⟨c, hc, hrow⟩ := List.any_eq_true.mp h
    exact List.any_eq_true.mpr ⟨c, hc, rowTomorrow_le_rowFound today c hrow⟩

/-- Witness for the amended claim C2 at a concrete panel listed today. -/
theorem listed_flag_implies_found_witness :
    (parse_case_result [["Hearing Date", "05-03-2024"]] "CNR123" ⟨2024, 3, 5⟩).found = true :=
  listed_flag_implies_found [["Hearing Date", "05-03-2024"]] "CNR123" ⟨2024, 3, 5⟩
    (Or.inl (by decide))

/-- Claim C8: a row with a hearing label whose value does not parse as
dd-mm-yyyy still records the raw value as next_hearing_date, and leaves
found, listed_today and listed_tomorrow exactly as they were before the
row. -/
theorem unparseable_hearing_value_row (today : Date) (r : CaseResult) (cells : List String)
    (h2 : 2 ≤ cells.length) (hl : hearingLabel (rowLabel cells) = true)
    (hp : parseDDMMYYYY (rowValue cells) = none) :
    (caseStep today r cells).next_hearing_date = some (rowValue cells) ∧
    (caseStep today r cells).found = r.found ∧
    (caseStep today r cells).listed_today = r.listed_today ∧
    (caseStep today r cells).listed_tomorrow = r.listed_tomorrow := by
  have hf : rowFound today cells = false := by
    unfold rowFound valueFound; simp [h2, hl, hp]
  have ht : rowToday today cells = false := by
    unfold rowToday valueToday; simp [h2, hl, hp]
  have hm : rowTomorrow today cells = false := by
    unfold rowTomorrow valueTomorrow; simp [h2, hl, hp]
  refine ⟨?_, ?_, ?_, ?_⟩
  · rw [caseStep_nhd]; simp [h2, hl]
  · rw [caseStep_found, hf]; simp
  · rw [caseStep_today, ht]; simp
  · rw [caseStep_tomorrow, hm]; simp

/-- Witness for claim C8 at a concrete unparseable hearing value. -/
theorem unparseable_hearing_value_row_witness :
    (caseStep ⟨2024, 3, 5⟩ (initCaseResult "c") ["Next Hearing Date", "next Monday"]).next_hearing_date
        = some (rowValue ["Next Hearing Date", "next Monday"]) ∧
    (caseStep ⟨2024, 3, 5⟩ (initCaseResult "c") ["Next Hearing Date", "next Monday"]).found
        = (initCaseResult "c").found ∧
    (caseStep ⟨2024, 3, 5⟩ (initCaseResult "c") ["Next Hearing Date", "next Monday"]).listed_today
        = (initCaseResult "c").listed_today ∧
    (caseStep ⟨2024, 3, 5⟩ (initCaseResult "c") ["Next Hearing Date", "next Monday"]).listed_tomorrow
        = (initCaseResult "c").listed_tomorrow :=
  unparseable_hearing_value_row ⟨2024, 3, 5⟩ (initCaseResult "c")
    ["Next Hearing Date", "next Monday"] (by decide) (by decide) (by decide)

/-- Claim C9, counterexample: the case-result interpreter reads the clock
(embedded as the today parameter standing for datetime.now() inside
_parse_case_result), so byte-identical HTML parsed at two different
ambient dates yields different output. -/
theorem case_interpreter_clock_dependent :
    parse_case_result [["Next Hearing Date", "05-03-2024"]] "c" ⟨2024, 3, 5⟩ ≠
      parse_case_result [["Next Hearing Date", "05-03-2024"]] "c" ⟨2024, 3, 7⟩ := by decide

/-- Claim C9, amended: both interpreters are deterministic functions of
their inputs once the ambient evaluation date of the case-result
interpreter is held fixed: equal HTML inputs give equal outputs. -/
theorem interpreters_deterministic (t1 t2 : Option (List (List String)))
    (rows1 rows2 : List (List String)) (caseId : String) (today : Date)
    (ht : t1 = t2) (hr : rows1 = rows2) :
    parse_cause_list t1 = parse_cause_list t2 ∧
    parse_case_result rows1 caseId today = parse_case_result rows2 caseId today := by
  subst ht
  subst hr
  exact ⟨rfl, rfl⟩

/-- Witness for the amended claim C9 at concrete equal inputs. -/
theorem interpreters_deterministic_witness :
    parse_cause_list (some [["h"], ["1", "a", "b", "c"]])
        = parse_cause_list (some [["h"], ["1", "a", "b", "c"]]) ∧
    parse_case_result [["Status", "Pending"]] "c" ⟨2024, 3, 5⟩
        = parse_case_result [["Status", "Pending"]] "c" ⟨2024, 3, 5⟩ :=
  interpreters_deterministic _ _ _ _ "c" ⟨2024, 3, 5⟩ rfl rfl

theorem extractOptions_loop (opts : List HtmlOption) :
    ∀ acc : List LocationEntry,
      opts.foldl
          (fun acc o => if validOption o then acc ++ [⟨optValue o, pyStrip o.text⟩] else acc) acc
        = acc ++ (opts.filter validOption).map (fun o => ⟨optValue o, pyStrip o.text⟩) := by
  induction opts with
  | nil => intro acc; simp
  | cons o os ih =>
    intro acc
    by_cases h : validOption o <;> simp [h, ih, List.filter_cons]

theorem extractOptions_eq (opts : List HtmlOption) :
    extractOptions opts
      = (opts.filter validOption).map (fun o => ⟨optValue o, pyStrip o.text⟩) := by
  unfold extractOptions
  simpa using extractOptions_loop opts []

theorem extractOptions_eq_nil_iff (opts : List HtmlOption) :
    extractOptions opts = [] ↔ ∀ o ∈ opts, validOption o = false := by
  rw [extractOptions_eq]
  simp [List.filter_eq_nil_iff]

theorem causeRowsLoop_loop (rows : List (List String)) :
    ∀ acc : List CauseListEntry,
      rows.foldl
          (fun acc cells => if 4 ≤ cells.length then acc ++ [mkCauseListEntry cells] else acc) acc
        = acc ++ (rows.filter (fun c => decide (4 ≤ c.length))).map mkCauseListEntry := by
  induction rows with
  | nil => intro acc; simp
  | cons c cs ih =>
    intro acc
    by_cases h : 4 ≤ c.length <;> simp [h, ih, List.filter_cons]

theorem causeRowsLoop_eq (rows : List (List String)) :
    causeRowsLoop rows = (rows.filter (fun c => decide (4 ≤ c.length))).map mkCauseListEntry := by
  unfold causeRowsLoop
  simpa using causeRowsLoop_loop rows []

/-- Claim C7: option extraction returns exactly the valid options (stripped
value truthy and different from the placeholder zero) as stripped
code/name pairs in document order, and every invalid option is excluded. -/
theorem extract_options_spec (opts : List HtmlOption) :
    extractOptions opts
        = (opts.filter validOption).map (fun o => ⟨optValue o, pyStrip o.text⟩) ∧
    (extractOptions opts).length = (opts.filter validOption).length ∧
    ∀ e ∈ extractOptions opts, e.code ≠ "" ∧ e.code ≠ "0" := by
  refine ⟨extractOptions_eq opts, ?_, ?_⟩
  · rw [extractOptions_eq]
    simp
  · intro e he
    rw [extractOptions_eq] at he
    obtain ⟨o, ho, rfl⟩ := List.mem_map.mp he
    have hv := (List.mem_filter.mp ho).2
    unfold validOption at hv
    simp only [Bool.and_eq_true, decide_eq_true_eq] at hv
    exact ⟨hv.1, hv.2⟩

/-- Claim C5: fetch_states returns the built-in fallback (ten entries with
codes one to ten) when the state select is absent or carries no valid
option, and returns exactly the extracted entries, untouched by the
fallback, as soon as one valid option exists. -/
theorem resolve_states_spec (opts : List HtmlOption) :
    default_states.length = 10 ∧
    default_states.map LocationEntry.code
        = ["1", "2", "3", "4", "5", "6", "7", "8", "9", "10"] ∧
    fetch_states (Except.ok none) = default_states ∧
    ((∀ o ∈ opts, validOption o = false) →
      fetch_states (Except.ok (some opts)) = default_states) ∧
    ((∃ o ∈ opts, validOption o = true) →
      fetch_states (Except.ok (some opts)) = extractOptions opts ∧ extractOptions opts ≠ []) := by
  refine ⟨rfl, rfl, rfl, ?_, ?_⟩
  · intro hall
    have hnil : extractOptions opts = [] := (extractOptions_eq_nil_iff opts).mpr hall
    simp [fetch_states, hnil]
  · rintro ⟨o, ho, hv⟩
    have hne : extractOptions opts ≠ [] := by
      intro hnil
      have := (extractOptions_eq_nil_iff opts).mp hnil o ho
      rw [hv] at this
      exact absurd this (by simp)
    refine ⟨?_, hne⟩
    simp [fetch_states, List.isEmpty_iff, hne]

/-- Claim C6: the cause-list interpreter drops the header row of the first
table, keeps exactly the remaining rows having at least four cells, builds
the entries in source order from cells zero to four with the purpose
defaulting to the empty string on a four-cell row, counts them in
total_cases, and yields the empty list when no table exists. -/
theorem cause_list_spec (rows : List (List String)) :
    parse_cause_list none = ⟨0, []⟩ ∧
    (parse_cause_list (some rows)).cases
        = ((rows.drop 1).filter (fun c => decide (4 ≤ c.length))).map mkCauseListEntry ∧
    (parse_cause_list (some rows)).total_cases = (parse_cause_list (some rows)).cases.length ∧
    (∀ cells : List String, 4 < cells.length →
      (mkCauseListEntry cells).purpose = pyStrip (cells.getD 4 "")) ∧
    (∀ cells : List String, cells.length = 4 → (mkCauseListEntry cells).purpose = "") := by
  refine ⟨rfl, ?_, rfl, ?_, ?_⟩
  · unfold parse_cause_list
    dsimp only
    exact causeRowsLoop_eq _
  · intro cells h
    unfold mkCauseListEntry
    simp [h]
  · intro cells h
    unfold mkCauseListEntry
    simp [h]

/-- Claim C10: every cause-list entry comes from a post-header row with at
least four cells, its advocate field is always the stripped third cell
(the empty-string fallback for advocate is unreachable), and only the
purpose field takes its empty default, exactly on four-cell rows. -/
theorem advocate_from_cell_three (rows : List (List String)) (e : CauseListEntry)
    (he : e ∈ (parse_cause_list (some rows)).cases) :
    ∃ cells ∈ rows.drop 1, 4 ≤ cells.length ∧ e = mkCauseListEntry cells ∧
      e.advocate = pyStrip (cells.getD 3 "") ∧ (cells.length = 4 → e.purpose = "") := by
  have hc : (parse_cause_list (some rows)).cases
      = ((rows.drop 1).filter (fun c => decide (4 ≤ c.length))).map mkCauseListEntry := by
    unfold parse_cause_list
    dsimp only
    exact causeRowsLoop_eq _
  rw [hc] at he
  obtain ⟨cells, hmem, rfl⟩ := List.mem_map.mp he
  have h4 : 4 ≤ cells.length := by
    have := (List.mem_filter.mp hmem).2
    simpa using this
  have h3 : 3 < cells.length := h4
  refine ⟨cells, (List.mem_filter.mp hmem).1, h4, rfl, ?_, ?_⟩
  · unfold mkCauseListEntry
    simp [h3]
  · intro hlen
    unfold mkCauseListEntry
    simp [hlen]

/-- Witness for claim C10 at a concrete one-row table. -/
theorem advocate_from_cell_three_witness :
    ∃ cells ∈ ([["h"], ["1", "A v B", "p", "Adv X"]] : List (List String)).drop 1,
      4 ≤ cells.length ∧
      mkCauseListEntry ["1", "A v B", "p", "Adv X"] = mkCauseListEntry cells ∧
      (mkCauseListEntry ["1", "A v B", "p", "Adv X"]).advocate = pyStrip (cells.getD 3 "") ∧
      (cells.length = 4 → (mkCauseListEntry ["1", "A v B", "p", "Adv X"]).purpose = "") :=
  advocate_from_cell_three [["h"], ["1", "A v B", "p", "Adv X"]]
    (mkCauseListEntry ["1", "A v B", "p", "Adv X"]) (by decide)

/-- Claim C3, counterexample: on a successful PDF response the operation
itself writes the payload to disk, so persistence is not left to the
caller as the claim states. -/
theorem download_pdf_writes_example :
    (download_cause_list_pdf "1" "2" "3" none "01-01-2024"
        (Except.ok ⟨200, some "application/pdf", [37, 80, 68, 70]⟩)).writes ≠ [] := by decide

/-- Claim C3, amended: the operation returns a filesystem path, not the
payload, exactly when the response has status 200 and content type exactly
application/pdf; in that case it writes the payload to that path itself,
and otherwise (any other response, or a transport failure) it returns
absent and writes nothing. -/
theorem download_pdf_spec (s d cc : String) (court : Option String) (date : String)
    (r : HttpResponse) (e : String) :
    download_cause_list_pdf s d cc court date (Except.error e) = ⟨none, []⟩ ∧
    ((download_cause_list_pdf s d cc court date (Except.ok r)).returned
        = some (pdfFilePath s d cc date)
      ↔ r.status_code = 200 ∧ r.content_type = some "application/pdf") ∧
    (download_cause_list_pdf s d cc court date (Except.ok r)).writes
      = (match (download_cause_list_pdf s d cc court date (Except.ok r)).returned with
          | some p => [(p, r.content)]
          | none => []) := by
  refine ⟨rfl, ?_, ?_⟩
  · by_cases h : r.status_code = 200 ∧ r.content_type = some "application/pdf" <;>
      simp [download_cause_list_pdf, h]
  · by_cases h : r.status_code = 200 ∧ r.content_type = some "application/pdf" <;>
      simp [download_cause_list_pdf, h]

/-- Claim C4, counterexample: on a transport failure fetch_states does not
return the empty sequence but the built-in fallback list. -/
theorem states_fallback_on_error_example :
    fetch_states (Except.error "timeout") = default_states ∧ default_states ≠ [] := by decide

/-- Claim C4, amended: on a transport failure the district, complex and
court fetchers return the empty sequence, both search operations return
absent, fetch_cause_list returns an error record with an empty cases list
(and neither total_cases nor metadata), and fetch_states returns the
built-in fallback list rather than an empty sequence. -/
theorem transport_failure_results (e cnr caseType caseNumber caseYear s d cc : String)
    (court : Option String) (date fetchedAt : String) (today : Date) :
    fetch_states (Except.error e) = default_states ∧
    fetch_districts (Except.error e) = [] ∧
    fetch_court_complexes (Except.error e) = [] ∧
    fetch_courts (Except.error e) = [] ∧
    search_case_by_cnr cnr today (Except.error e) = none ∧
    search_case_by_details caseType caseNumber caseYear today (Except.error e) = none ∧
    fetch_cause_list s d cc court date fetchedAt (Except.error e)
        = ⟨none, [], some e, none⟩ :=
  ⟨rfl, rfl, rfl, rfl, rfl, rfl, rfl⟩
